import Mathlib

/-!
Verification of the POS integration layer of the repository
(`src/poscommunication.cpp` / `src/poscommunication.h`, plus the
standalone wrapper `src/TokenCppDllTemplate.cpp`).

The C++ class `POSCommunication` is a thin shim over a vendor DLL: it
loads four native libraries, resolves nine symbols, guards each
session-dependent call with a null-handle check, runs the connection
attempt on a background worker thread, and reacts to vendor callbacks.

This file gives a shallow embedding of that shim.  External effects
(native entry points, the file system, symbol resolution) are supplied
as explicit parameters, and each embedded routine additionally returns
a trace of the externally visible events it performs (log messages,
signal emissions, native calls, direct writes to shared state together
with the thread that performs them), in source order.
-/

namespace POSIntegration

/-- The shared mutable state of `POSCommunication` relevant to the
connection lifecycle: `m_connection` (a nullable native handle,
modelled as `Option Nat`), `m_isConnected` and `m_isConnecting`. -/
structure POSState where
  connection : Option Nat
  isConnected : Bool
  isConnecting : Bool
deriving DecidableEq, Repr

/-- Threads of the program as described by the source: the Qt main/UI
thread, the background worker created by `connect()` via
`QThread::create`, and the vendor library's own callback thread. -/
inductive ThreadKind
  | mainThread
  | workerThread
  | vendorCallbackThread
deriving DecidableEq, Repr

/-- The pieces of shared state of `POSCommunication` that the
concurrency claims talk about. -/
inductive SharedField
  | connectionHandle
  | connectedFlag
  | connectingFlag
deriving DecidableEq, Repr

/-! ### Native call layer (`sendBasket`, `sendPayment`, `getFiscalInfo`,
`getActiveDeviceIndex`, lines 243-321 of `poscommunication.cpp`) -/

/-- The behaviour of the opaque vendor library's synchronous entry
points, as seen through the resolved function pointers.  A handle is a
`Nat`; results are abstract. -/
structure NativeLib where
  getActiveDeviceIndexFn : Nat → Int
  sendBasketFn : Nat → String → Int
  sendPaymentFn : Nat → String → Int
  getFiscalInfoFn : Nat → String

/-- A call into one of the four synchronous native entry points. -/
inductive NativeCall
  | getActiveDeviceIndexCall (h : Nat)
  | sendBasketCall (h : Nat) (jsonData : String)
  | sendPaymentCall (h : Nat) (jsonData : String)
  | getFiscalInfoCall (h : Nat)
deriving DecidableEq, Repr

/-- `POSCommunication::sendBasket` (lines 265-275): if `m_connection`
is null it throws `std::runtime_error("Not connected")`; otherwise it
returns `m_sendBasket(m_connection, jsonData)`.  The second component
is the list of native calls performed. -/
def sendBasket (lib : NativeLib) (conn : Option Nat) (jsonData : String) :
    Except String Int × List NativeCall :=
  match conn with
  | none => (Except.error "Not connected", [])
  | some h => (Except.ok (lib.sendBasketFn h jsonData), [NativeCall.sendBasketCall h jsonData])

/-- `POSCommunication::sendPayment` (lines 287-297), same guard. -/
def sendPayment (lib : NativeLib) (conn : Option Nat) (jsonData : String) :
    Except String Int × List NativeCall :=
  match conn with
  | none => (Except.error "Not connected", [])
  | some h => (Except.ok (lib.sendPaymentFn h jsonData), [NativeCall.sendPaymentCall h jsonData])

/-- `POSCommunication::getFiscalInfo` (lines 308-321): guard, then
`m_getFiscalInfo(m_connection)` whose BSTR result is converted to a
`QString` (the conversion is value-preserving, so it is the identity
on the modelled string). -/
def getFiscalInfo (lib : NativeLib) (conn : Option Nat) :
    Except String String × List NativeCall :=
  match conn with
  | none => (Except.error "Not connected", [])
  | some h => (Except.ok (lib.getFiscalInfoFn h), [NativeCall.getFiscalInfoCall h])

/-- `POSCommunication::getActiveDeviceIndex` (lines 243-253), same
guard. -/
def getActiveDeviceIndex (lib : NativeLib) (conn : Option Nat) :
    Except String Int × List NativeCall :=
  match conn with
  | none => (Except.error "Not connected", [])
  | some h => (Except.ok (lib.getActiveDeviceIndexFn h), [NativeCall.getActiveDeviceIndexCall h])

/-! ### Library loading (`loadLibraries`, lines 331-382) -/

/-- What happens for one candidate DLL file at one search path:
the file does not exist (`QFile::exists` is false), it exists but
`QLibrary::load()` fails, or it exists and loads. -/
inductive LoadOutcome
  | absent
  | loadFail
  | ok
deriving DecidableEq, Repr

/-- The file system / loader environment: for a search path and a DLL
file name, the outcome of attempting `path + "/" + dllName`. -/
structure FileSystem where
  outcome : String → String → LoadOutcome

/-- The fixed list of required DLLs, in the order the source lists
them (lines 334-339). -/
def requiredDlls : List String :=
  ["libcrypto-3.dll", "libusb-1.0.dll", "zlib1.dll", "IntegrationHubCpp.dll"]

/-- The search paths, in the order the source lists them (lines
342-345): the application directory, then the current directory. -/
def searchPaths (appDir curDir : String) : List String :=
  [appDir, curDir]

/-- The inner loop of `loadLibraries` for one DLL (lines 348-368): try
each search path in order; skip a path where the file is absent or
fails to load, stop at the first path where it loads.  Returns the
path the DLL was loaded from, if any. -/
def tryLoadDll (fs : FileSystem) (paths : List String) (dll : String) : Option String :=
  match paths with
  | [] => none
  | p :: rest =>
    match fs.outcome p dll with
    | LoadOutcome.ok => some p
    | _ => tryLoadDll fs rest dll

/-- The outer loop of `loadLibraries`: process the DLLs in order,
returning `false` as soon as one cannot be loaded (lines 370-373).
The second component is the list of DLL names attempted, in order. -/
def loadLibrariesAux (fs : FileSystem) (paths : List String) :
    List String → Bool × List String
  | [] => (true, [])
  | dll :: rest =>
    match tryLoadDll fs paths dll with
    | some _ =>
      let r := loadLibrariesAux fs paths rest
      (r.1, dll :: r.2)
    | none => (false, [dll])

/-- `POSCommunication::loadLibraries` (lines 331-382, Windows branch):
load the four required DLLs over the two search paths. -/
def loadLibraries (fs : FileSystem) (appDir curDir : String) : Bool × List String :=
  loadLibrariesAux fs (searchPaths appDir curDir) requiredDlls

/-! ### Symbol resolution (`initializeFunctions`, lines 390-427, and
the template wrapper's `LoadNativeLibrary`, `TokenCppDllTemplate.cpp`
lines 88-107) -/

/-- The nine function pointers both components resolve from
`IntegrationHubCpp.dll`, with the source's member names.  `none`
models a null pointer. -/
structure FunctionPointers where
  createCommunication : Option Nat
  deleteCommunication : Option Nat
  reconnect : Option Nat
  getActiveDeviceIndex : Option Nat
  sendBasket : Option Nat
  sendPayment : Option Nat
  getFiscalInfo : Option Nat
  setSerialInCallback : Option Nat
  setDeviceStateCallback : Option Nat
deriving DecidableEq, Repr

/-- The nine symbol names, in the order the source resolves them. -/
def requiredSymbols : List String :=
  ["createCommunication", "deleteCommunication", "reconnect", "getActiveDeviceIndex",
   "sendBasket", "sendPayment", "getFiscalInfo", "setSerialInCallback",
   "setDeviceStateCallback"]

/-- Resolve the nine pointers through a resolver (`QLibrary::resolve`
resp. `GetProcAddress`), mirroring lines 408-416 of
`poscommunication.cpp` and lines 94-102 of `TokenCppDllTemplate.cpp`. -/
def resolveAll (resolve : String → Option Nat) : FunctionPointers :=
  { createCommunication := resolve "createCommunication"
  , deleteCommunication := resolve "deleteCommunication"
  , reconnect := resolve "reconnect"
  , getActiveDeviceIndex := resolve "getActiveDeviceIndex"
  , sendBasket := resolve "sendBasket"
  , sendPayment := resolve "sendPayment"
  , getFiscalInfo := resolve "getFiscalInfo"
  , setSerialInCallback := resolve "setSerialInCallback"
  , setDeviceStateCallback := resolve "setDeviceStateCallback" }

/-- The all-resolved check shared by both components (lines 419-421
resp. line 104): every one of the nine pointers is non-null. -/
def allResolved (fp : FunctionPointers) : Bool :=
  fp.createCommunication.isSome && fp.deleteCommunication.isSome &&
  fp.reconnect.isSome && fp.getActiveDeviceIndex.isSome &&
  fp.sendBasket.isSome && fp.sendPayment.isSome &&
  fp.getFiscalInfo.isSome && fp.setSerialInCallback.isSome &&
  fp.setDeviceStateCallback.isSome

/-- `POSCommunication::initializeFunctions` (lines 390-427): `mainDll`
is the loaded `IntegrationHubCpp.dll` if present among the loaded
libraries (`none` models the not-found case, line 402).  When found,
the nine symbols are resolved and a failure or success message is
logged; the function never throws.  Returns the resolved pointers (if
any) and the log. -/
def initializeFunctions (mainDll : Option (String → Option Nat)) :
    Option FunctionPointers × List String :=
  match mainDll with
  | none => (none, ["Failed to find main DLL in loaded libraries"])
  | some resolve =>
    let fp := resolveAll resolve
    if allResolved fp then
      (some fp, ["Successfully initialized all DLL functions"])
    else
      (some fp, ["Failed to resolve one or more functions from DLL"])

/-- `POSCommunication::LoadNativeLibrary` of the template wrapper
(`TokenCppDllTemplate.cpp` lines 88-107): `LoadLibraryA` then
`GetProcAddress` for the nine symbols; throws `std::runtime_error`
when the DLL cannot be loaded or any symbol is missing. -/
def LoadNativeLibrary (loadLibraryA : String → Option Nat)
    (getProcAddress : Nat → String → Option Nat) (libName : String) :
    Except String FunctionPointers :=
  match loadLibraryA libName with
  | none => Except.error "Unable to load DLL"
  | some handle =>
    let fp := resolveAll (getProcAddress handle)
    if allResolved fp then Except.ok fp
    else Except.error "Failed to load required functions from DLL"

/-- The Qt `POSCommunication` constructor (lines 40-55): initialise
the fields, call `loadLibraries`; on failure emit a log message and
return, otherwise call `initializeFunctions`.  The `raised` component
is the exception propagated out of the constructor — the constructor
body contains no `throw`, so it is always `none`. -/
structure CtorResult where
  stateAfter : POSState
  raised : Option String
  log : List String
deriving DecidableEq, Repr

/-- The constructor itself.  `mainDll` is the resolver of
`IntegrationHubCpp.dll` when loading succeeded (in the source it is
recovered from `m_libraries`, which after a successful `loadLibraries`
always contains it). -/
def POSCommunicationCtor (fs : FileSystem) (appDir curDir : String)
    (mainDll : Option (String → Option Nat)) : CtorResult :=
  let s0 : POSState := { connection := none, isConnected := false, isConnecting := false }
  if (loadLibraries fs appDir curDir).1 = false then
    { stateAfter := s0, raised := none, log := ["Failed to load required libraries"] }
  else
    { stateAfter := s0, raised := none, log := (initializeFunctions mainDll).2 }

/-! ### Connection lifecycle (`connect`, `doConnect`, `disconnect`,
lines 126-214) -/

/-- Externally visible events of `connect()`. -/
inductive ConnectEffect
  | logMsg (s : String)
  | connectionStatusChangedSignal (b : Bool)
  | startBackgroundThread
deriving DecidableEq, Repr

/-- The result of the main-thread part of `connect()`: the state after
the call, the events emitted, and the direct writes to shared state
paired with the thread performing them. -/
structure ConnectCallResult where
  stateAfter : POSState
  effects : List ConnectEffect
  directWrites : List (ThreadKind × SharedField)
deriving DecidableEq, Repr

/-- `POSCommunication::connect` (lines 126-163), as executed on the
main thread (its callers are the UI slots and the queued
`invokeMethod` of the device-state handler, both of which run on the
main thread).  If `m_connection` is non-null or `m_isConnecting` is
set, it only logs and returns; otherwise it sets `m_isConnecting`,
logs, emits `connectionStatusChanged(false)` and starts the background
worker thread that will run `doConnect`. -/
def connect (s : POSState) : ConnectCallResult :=
  if s.connection.isSome then
    { stateAfter := s
    , effects := [ConnectEffect.logMsg "Already connected"]
    , directWrites := [] }
  else if s.isConnecting then
    { stateAfter := s
    , effects := [ConnectEffect.logMsg "Connection attempt already in progress..."]
    , directWrites := [] }
  else
    { stateAfter := { s with isConnecting := true }
    , effects := [ConnectEffect.logMsg "Connecting...",
                  ConnectEffect.connectionStatusChangedSignal false,
                  ConnectEffect.startBackgroundThread]
    , directWrites := [(ThreadKind.mainThread, SharedField.connectingFlag)] }

/-- The completion lambdas the worker queues back onto the main thread
via `QMetaObject::invokeMethod(this, ...)` (lines 146-156): both the
success and the failure lambda log, clear `m_isConnecting` and emit
`connectionStatusChanged`.  They execute on the main thread (the
target object lives there), so their write to the connecting flag is a
main-thread write. -/
def connectCompletion (s : POSState) (success : Bool) (errMsg : String) :
    ConnectCallResult :=
  if success then
    { stateAfter := { s with isConnecting := false }
    , effects := [ConnectEffect.logMsg "Connected successfully",
                  ConnectEffect.connectionStatusChangedSignal true]
    , directWrites := [(ThreadKind.mainThread, SharedField.connectingFlag)] }
  else
    { stateAfter := { s with isConnecting := false }
    , effects := [ConnectEffect.logMsg ("Error connecting: " ++ errMsg),
                  ConnectEffect.connectionStatusChangedSignal false]
    , directWrites := [(ThreadKind.mainThread, SharedField.connectingFlag)] }

/-- Externally visible events of `doConnect()` in source order. -/
inductive DoConnectEvent
  | logMsg (s : String)
  | nativeCreate (company : String)
  | serialCallbackRegistered (h : Nat)
  | deviceCallbackRegistered (h : Nat)
deriving DecidableEq, Repr

/-- The result of `doConnect`: the value assigned to `m_connection`,
the event trace, the exception thrown (if any), and the direct writes
to shared state with the thread that performs them. -/
structure DoConnectResult where
  connection : Option Nat
  events : List DoConnectEvent
  raised : Option String
  directWrites : List (ThreadKind × SharedField)
deriving DecidableEq, Repr

/-- `POSCommunication::doConnect` (lines 173-195, Windows branch), as
executed on the background worker thread created by `connect()`.  It
logs, assigns `m_connection := m_createCommunication(companyName)`
(a worker-thread write to the connection handle in both branches),
throws when the result is null, and otherwise registers the
serial-input callback and then the device-state callback on the new
handle. -/
def doConnect (create : String → Option Nat) (company : String) : DoConnectResult :=
  match create company with
  | none =>
    { connection := none
    , events := [DoConnectEvent.logMsg "Creating communication instance...",
                 DoConnectEvent.nativeCreate company]
    , raised := some "Failed to create communication instance"
    , directWrites := [(ThreadKind.workerThread, SharedField.connectionHandle)] }
  | some h =>
    { connection := some h
    , events := [DoConnectEvent.logMsg "Creating communication instance...",
                 DoConnectEvent.nativeCreate company,
                 DoConnectEvent.logMsg "Setting up callbacks...",
                 DoConnectEvent.serialCallbackRegistered h,
                 DoConnectEvent.deviceCallbackRegistered h,
                 DoConnectEvent.logMsg "Connection setup complete"]
    , raised := none
    , directWrites := [(ThreadKind.workerThread, SharedField.connectionHandle)] }

/-- Does a `doConnect` event register a callback on the session? -/
def isCallbackRegistration : DoConnectEvent → Bool
  | DoConnectEvent.serialCallbackRegistered _ => true
  | DoConnectEvent.deviceCallbackRegistered _ => true
  | _ => false

/-- Is a `doConnect` event the `createCommunication` native call? -/
def isNativeCreateEvent : DoConnectEvent → Bool
  | DoConnectEvent.nativeCreate _ => true
  | _ => false

/-- Externally visible events of `disconnect()`. -/
inductive DisconnectEffect
  | nativeDelete (h : Nat)
  | connectionStatusChangedSignal (b : Bool)
  | logMsg (s : String)
deriving DecidableEq, Repr

/-- `POSCommunication::disconnect` (lines 203-214, Windows branch): if
`m_connection` is non-null, call `deleteCommunication`, null the
handle, clear `m_isConnected` and emit the two signals; otherwise do
nothing at all. -/
def disconnect (s : POSState) : POSState × List DisconnectEffect :=
  match s.connection with
  | some h =>
    ({ s with connection := none, isConnected := false },
     [DisconnectEffect.nativeDelete h,
      DisconnectEffect.connectionStatusChangedSignal false,
      DisconnectEffect.logMsg "Disconnected"])
  | none => (s, [])

/-! ### Vendor callbacks (`deviceStateCallbackHandler`, lines 460-481) -/

/-- Invocations queued onto the main thread via
`QMetaObject::invokeMethod(..., Qt::QueuedConnection, ...)`. -/
inductive QueuedAction
  | deviceStateChangedSignal (b : Bool) (deviceId : String)
  | connectionStatusChangedSignal (b : Bool)
  | logMsg (s : String)
  | invokeConnect
deriving DecidableEq, Repr

/-- The result of one run of the device-state callback handler: the
singleton's state after the handler body, the actions queued to the
main thread, and the direct writes to shared state with the thread
performing them. -/
structure CallbackResult where
  instanceAfter : Option POSState
  queued : List QueuedAction
  directWrites : List (ThreadKind × SharedField)
deriving DecidableEq, Repr

/-- `POSCommunication::deviceStateCallbackHandler` (lines 460-481), as
invoked by the vendor library on its own callback thread.  When the
singleton exists it assigns `m_instance->m_isConnected = isConnected`
synchronously (a vendor-callback-thread write, line 464), queues the
two signals and a log line, and — only when the event reports a
disconnect AND `m_isConnecting` is false — queues a log line and an
invocation of `connect` (lines 475-479). -/
def deviceStateCallbackHandler (inst : Option POSState) (isConnected : Bool)
    (deviceId : String) : CallbackResult :=
  match inst with
  | none => { instanceAfter := none, queued := [], directWrites := [] }
  | some s =>
    let s1 := { s with isConnected := isConnected }
    let base : List QueuedAction :=
      [QueuedAction.deviceStateChangedSignal isConnected deviceId,
       QueuedAction.connectionStatusChangedSignal isConnected,
       QueuedAction.logMsg ("Device State - Connected: " ++
         (if isConnected then "Yes" else "No") ++ ", ID: " ++ deviceId)]
    if !isConnected && !s.isConnecting then
      { instanceAfter := some s1
      , queued := base ++ [QueuedAction.logMsg "Connection lost. Attempting to reconnect...",
                           QueuedAction.invokeConnect]
      , directWrites := [(ThreadKind.vendorCallbackThread, SharedField.connectedFlag)] }
    else
      { instanceAfter := some s1
      , queued := base
      , directWrites := [(ThreadKind.vendorCallbackThread, SharedField.connectedFlag)] }

/-! ### Singleton accessor (`getInstance`, lines 92-98) -/

/-- A constructed `POSCommunication` object, abstracted to its
identity (the allocation) and the company name it was constructed
with. -/
structure POSInstanceObj where
  objId : Nat
  companyName : String
deriving DecidableEq, Repr

/-- `POSCommunication::getInstance` (lines 92-98): if `m_instance` is
null, allocate a new object with the given company name (`fresh` is
the identity of the new allocation) and store it; return the stored
instance.  The first component is the returned pointer, the second the
value of `m_instance` after the call. -/
def getInstance (inst : Option POSInstanceObj) (fresh : Nat) (companyName : String) :
    POSInstanceObj × Option POSInstanceObj :=
  match inst with
  | none =>
    let obj : POSInstanceObj := { objId := fresh, companyName := companyName }
    (obj, some obj)
  | some obj => (obj, some obj)

/-! ## Helper lemmas -/

/-- Over the two-element search path list, a DLL is loaded from the
application directory whenever it loads there, and from the current
directory only otherwise. -/
theorem tryLoadDll_pair (fs : FileSystem) (a c dll : String) :
    tryLoadDll fs [a, c] dll =
      if fs.outcome a dll = LoadOutcome.ok then some a
      else if fs.outcome c dll = LoadOutcome.ok then some c
      else none := by
  cases h1 : fs.outcome a dll <;> cases h2 : fs.outcome c dll <;>
    simp [tryLoadDll, h1, h2]

/-- The outer loop reports success exactly when every DLL in the list
can be loaded from some search path. -/
theorem loadLibrariesAux_success (fs : FileSystem) (paths : List String) :
    ∀ dlls : List String,
      ((loadLibrariesAux fs paths dlls).1 = true ↔
        ∀ d ∈ dlls, (tryLoadDll fs paths d).isSome = true) := by
  intro dlls
  induction dlls with
  | nil => simp [loadLibrariesAux]
  | cons d rest ih =>
    cases h : tryLoadDll fs paths d with
    | none => simp [loadLibrariesAux, h]
    | some p => simp [loadLibrariesAux, h, ih]

/-- The outer loop attempts exactly the prefix of loadable DLLs
followed by the first unloadable one (or the whole list when all
load): it stops at the first failure. -/
theorem loadLibrariesAux_attempted (fs : FileSystem) (paths : List String) :
    ∀ dlls : List String,
      (loadLibrariesAux fs paths dlls).2 =
        (match dlls.dropWhile (fun d => (tryLoadDll fs paths d).isSome) with
         | [] => dlls
         | d :: _ =>
           dlls.takeWhile (fun d => (tryLoadDll fs paths d).isSome) ++ [d]) := by
  intro dlls
  induction dlls with
  | nil => simp [loadLibrariesAux]
  | cons d rest ih =>
    cases h : tryLoadDll fs paths d with
    | none => simp [loadLibrariesAux, h, List.dropWhile_cons, List.takeWhile_cons]
    | some p =>
      cases hr : rest.dropWhile (fun d => (tryLoadDll fs paths d).isSome) with
      | nil =>
        simp [loadLibrariesAux, h, ih, hr, List.dropWhile_cons, List.takeWhile_cons]
      | cons d2 t =>
        simp [loadLibrariesAux, h, ih, hr, List.dropWhile_cons, List.takeWhile_cons]

/-! ## Claims -/

/-- C1: with a null connection handle, `sendBasket`, `sendPayment`,
`getFiscalInfo` and `getActiveDeviceIndex` each raise the runtime
error "Not connected" and invoke no native entry point; with a
non-null handle each invokes exactly its corresponding native function
once and returns its result. -/
theorem c1_null_guard_and_dispatch (lib : NativeLib) (h : Nat) (jsonData : String) :
    sendBasket lib none jsonData = (Except.error "Not connected", []) ∧
    sendPayment lib none jsonData = (Except.error "Not connected", []) ∧
    getFiscalInfo lib none = (Except.error "Not connected", []) ∧
    getActiveDeviceIndex lib none = (Except.error "Not connected", []) ∧
    sendBasket lib (some h) jsonData =
      (Except.ok (lib.sendBasketFn h jsonData), [NativeCall.sendBasketCall h jsonData]) ∧
    sendPayment lib (some h) jsonData =
      (Except.ok (lib.sendPaymentFn h jsonData), [NativeCall.sendPaymentCall h jsonData]) ∧
    getFiscalInfo lib (some h) =
      (Except.ok (lib.getFiscalInfoFn h), [NativeCall.getFiscalInfoCall h]) ∧
    getActiveDeviceIndex lib (some h) =
      (Except.ok (lib.getActiveDeviceIndexFn h), [NativeCall.getActiveDeviceIndexCall h]) :=
  ⟨rfl, rfl, rfl, rfl, rfl, rfl, rfl, rfl⟩

/-- C2: `loadLibraries` processes exactly the four DLLs
libcrypto-3.dll, libusb-1.0.dll, zlib1.dll, IntegrationHubCpp.dll in
that order; for each it tries the application directory before the
current directory; it returns true iff all four load, and it stops at
the first DLL that cannot be found or loaded without attempting the
remaining ones. -/
theorem c2_loadLibraries_order_and_shortcircuit (fs : FileSystem) (appDir curDir : String) :
    requiredDlls = ["libcrypto-3.dll", "libusb-1.0.dll", "zlib1.dll",
                    "IntegrationHubCpp.dll"] ∧
    searchPaths appDir curDir = [appDir, curDir] ∧
    (∀ dll, tryLoadDll fs (searchPaths appDir curDir) dll =
      if fs.outcome appDir dll = LoadOutcome.ok then some appDir
      else if fs.outcome curDir dll = LoadOutcome.ok then some curDir
      else none) ∧
    ((loadLibraries fs appDir curDir).1 = true ↔
      ∀ d ∈ requiredDlls, (tryLoadDll fs (searchPaths appDir curDir) d).isSome = true) ∧
    (loadLibraries fs appDir curDir).2 =
      (match requiredDlls.dropWhile
          (fun d => (tryLoadDll fs (searchPaths appDir curDir) d).isSome) with
       | [] => requiredDlls
       | d :: _ =>
         requiredDlls.takeWhile
           (fun d => (tryLoadDll fs (searchPaths appDir curDir) d).isSome) ++ [d]) :=
  ⟨rfl, rfl, fun dll => tryLoadDll_pair fs appDir curDir dll,
   loadLibrariesAux_success fs (searchPaths appDir curDir) requiredDlls,
   loadLibrariesAux_attempted fs (searchPaths appDir curDir) requiredDlls⟩

/-- C3: `initializeFunctions` resolves exactly the nine named symbols
from IntegrationHubCpp.dll, and reports success iff all nine resolved
to non-null pointers (otherwise it logs the failure message). -/
theorem c3_initializeFunctions_nine_symbols (resolve : String → Option Nat) :
    requiredSymbols.length = 9 ∧
    requiredSymbols.Nodup ∧
    (resolveAll resolve).createCommunication = resolve "createCommunication" ∧
    (resolveAll resolve).deleteCommunication = resolve "deleteCommunication" ∧
    (resolveAll resolve).reconnect = resolve "reconnect" ∧
    (resolveAll resolve).getActiveDeviceIndex = resolve "getActiveDeviceIndex" ∧
    (resolveAll resolve).sendBasket = resolve "sendBasket" ∧
    (resolveAll resolve).sendPayment = resolve "sendPayment" ∧
    (resolveAll resolve).getFiscalInfo = resolve "getFiscalInfo" ∧
    (resolveAll resolve).setSerialInCallback = resolve "setSerialInCallback" ∧
    (resolveAll resolve).setDeviceStateCallback = resolve "setDeviceStateCallback" ∧
    (allResolved (resolveAll resolve) = true ↔
      ∀ s ∈ requiredSymbols, (resolve s).isSome = true) ∧
    (initializeFunctions (some resolve)).2 =
      [if allResolved (resolveAll resolve) then "Successfully initialized all DLL functions"
       else "Failed to resolve one or more functions from DLL"] := by
  refine ⟨rfl, by decide, rfl, rfl, rfl, rfl, rfl, rfl, rfl, rfl, rfl, ?_, ?_⟩
  · constructor
    · intro hall
      simp only [allResolved, resolveAll, Bool.and_eq_true] at hall
      intro s hs
      simp only [requiredSymbols, List.mem_cons, List.not_mem_nil, or_false] at hs
      rcases hs with h | h | h | h | h | h | h | h | h <;> subst h <;> tauto
    · intro hall
      simp only [allResolved, resolveAll, Bool.and_eq_true]
      simp only [requiredSymbols, List.forall_mem_cons] at hall
      tauto
  · by_cases hall : allResolved (resolveAll resolve) = true
    · simp [initializeFunctions, hall]
    · simp only [Bool.not_eq_true] at hall
      simp [initializeFunctions, hall]

/-- C6: `doConnect` first calls `createCommunication`; when that
returns a null handle it raises a runtime error and registers no
callback; otherwise it raises nothing and registers the serial-input
callback and then the device-state callback on the newly created
handle, and no callback registration precedes the create call. -/
theorem c6_doConnect_order (create : String → Option Nat) (company : String) :
    ((doConnect create company).raised.isSome ↔ create company = none) ∧
    (doConnect create company).connection = create company ∧
    ((doConnect create company).events.filter isCallbackRegistration =
      (match create company with
       | none => []
       | some h => [DoConnectEvent.serialCallbackRegistered h,
                    DoConnectEvent.deviceCallbackRegistered h])) ∧
    ((doConnect create company).events.takeWhile
        (fun e => !(isNativeCreateEvent e))).filter isCallbackRegistration = [] := by
  cases h : create company with
  | none =>
    simp [doConnect, h, isCallbackRegistration, isNativeCreateEvent,
          List.filter, List.takeWhile]
  | some hdl =>
    simp [doConnect, h, isCallbackRegistration, isNativeCreateEvent,
          List.filter, List.takeWhile]

/-- C8: when a session handle already exists or a connection attempt
is in progress, `connect()` leaves the whole state (handle, connected
flag, connecting flag) unchanged, performs no write to shared state,
and starts no background thread (hence creates no session). -/
theorem c8_connect_noop_when_busy (s : POSState)
    (h : s.connection.isSome = true ∨ s.isConnecting = true) :
    (connect s).stateAfter = s ∧
    ConnectEffect.startBackgroundThread ∉ (connect s).effects ∧
    (connect s).directWrites = [] := by
  rcases h with h | h
  · simp [connect, h]
  · cases hc : s.connection.isSome with
    | true => simp [connect, hc]
    | false => simp [connect, hc, h]

/-- Witness for C8 at the concrete already-connected state and the
concrete connecting-in-progress state. -/
theorem c8_connect_noop_when_busy_witness :
    ((connect { connection := some 1, isConnected := true, isConnecting := false }).stateAfter
        = { connection := some 1, isConnected := true, isConnecting := false } ∧
      ConnectEffect.startBackgroundThread ∉
        (connect { connection := some 1, isConnected := true, isConnecting := false }).effects) ∧
    (connect { connection := none, isConnected := false, isConnecting := true }).stateAfter
        = { connection := none, isConnected := false, isConnecting := true } := by
  have h1 := c8_connect_noop_when_busy
    { connection := some 1, isConnected := true, isConnecting := false } (Or.inl (by decide))
  have h2 := c8_connect_noop_when_busy
    { connection := none, isConnected := false, isConnecting := true } (Or.inr (by decide))
  exact ⟨⟨h1.1, h1.2.1⟩, h2.1⟩

/-- C10: the first `getInstance` call creates the instance with the
company name it was given and stores it; every later call returns the
same stored instance, its result is always non-null, and the company
name argument of a later call has no effect whatsoever. -/
theorem c10_getInstance_singleton (obj : POSInstanceObj)
    (fresh fresh2 : Nat) (name name2 : String) :
    getInstance none fresh name =
      ({ objId := fresh, companyName := name },
       some { objId := fresh, companyName := name }) ∧
    getInstance (some obj) fresh name = (obj, some obj) ∧
    getInstance (some obj) fresh name = getInstance (some obj) fresh2 name2 ∧
    (getInstance (some obj) fresh name).1.companyName = obj.companyName ∧
    (∀ inst fr nm, ((getInstance inst fr nm).2).isSome = true) :=
  ⟨rfl, rfl, rfl, rfl, fun inst _ _ => by cases inst <;> rfl⟩

/-- C4 counterexample: a device-state event reporting a disconnect
that arrives while a connection attempt is in progress
(`m_isConnecting` true) queues no reconnect invocation — so the
reconnect on disconnect is not unconditional. -/
theorem c4_reconnect_skipped_counterexample :
    QueuedAction.invokeConnect ∉
      (deviceStateCallbackHandler
        (some { connection := none, isConnected := true, isConnecting := true })
        false "POS1").queued := by
  decide

/-- C4 amended: a reconnect is queued for exactly those device-state
events that report a disconnect while the singleton exists and no
connection attempt is in progress; the handler imposes no bound on the
number of such reconnects. -/
theorem c4_reconnect_condition (inst : Option POSState) (b : Bool) (deviceId : String) :
    QueuedAction.invokeConnect ∈ (deviceStateCallbackHandler inst b deviceId).queued ↔
      (b = false ∧ ∃ s, inst = some s ∧ s.isConnecting = false) := by
  cases inst with
  | none => simp [deviceStateCallbackHandler]
  | some s =>
    cases b <;> cases hc : s.isConnecting <;>
      simp [deviceStateCallbackHandler, hc]

/-- An environment in which no DLL file exists at any path. -/
def emptyFileSystem : FileSystem :=
  { outcome := fun _ _ => LoadOutcome.absent }

/-- C5 counterexample: when no library can be loaded, the Qt
`POSCommunication` constructor raises no error at all — construction
completes normally and the failure is reported only through a log
message. -/
theorem c5_ctor_only_logs_counterexample :
    (POSCommunicationCtor emptyFileSystem "C:/app" "C:/cur" none).raised = none ∧
    (POSCommunicationCtor emptyFileSystem "C:/app" "C:/cur" none).log =
      ["Failed to load required libraries"] := by
  constructor <;> rfl

/-- C5 amended: the Qt `POSCommunication` constructor never raises an
error — on a library-load failure it completes normally with only a
log message — while the template wrapper's `LoadNativeLibrary` does
raise a generic runtime error when the DLL cannot be loaded or when
some required symbol is missing. -/
theorem c5_error_reporting (fs : FileSystem) (appDir curDir : String)
    (mainDll : Option (String → Option Nat))
    (loadLibraryA : String → Option Nat)
    (getProcAddress : Nat → String → Option Nat) (libName : String) :
    (POSCommunicationCtor fs appDir curDir mainDll).raised = none ∧
    ((loadLibraries fs appDir curDir).1 = false →
      (POSCommunicationCtor fs appDir curDir mainDll).log =
        ["Failed to load required libraries"]) ∧
    (loadLibraryA libName = none →
      LoadNativeLibrary loadLibraryA getProcAddress libName =
        Except.error "Unable to load DLL") ∧
    (∀ handle, loadLibraryA libName = some handle →
      allResolved (resolveAll (getProcAddress handle)) = false →
      LoadNativeLibrary loadLibraryA getProcAddress libName =
        Except.error "Failed to load required functions from DLL") := by
  refine ⟨?_, ?_, ?_, ?_⟩
  · unfold POSCommunicationCtor
    split <;> rfl
  · intro hfail
    simp [POSCommunicationCtor, hfail]
  · intro hload
    simp [LoadNativeLibrary, hload]
  · intro handle hload hres
    simp [LoadNativeLibrary, hload, hres]

/-- Witness for C5 at concrete environments: a failing library load
for the Qt constructor, a failing `LoadLibraryA` and a failing symbol
resolution for the template wrapper. -/
theorem c5_error_reporting_witness :
    (POSCommunicationCtor emptyFileSystem "a" "c" none).log =
      ["Failed to load required libraries"] ∧
    LoadNativeLibrary (fun _ => none) (fun _ _ => none) "IntegrationHubCpp.dll" =
      Except.error "Unable to load DLL" ∧
    LoadNativeLibrary (fun _ => some 7) (fun _ _ => none) "IntegrationHubCpp.dll" =
      Except.error "Failed to load required functions from DLL" := by
  refine ⟨(c5_error_reporting emptyFileSystem "a" "c" none
            (fun _ => none) (fun _ _ => none) "IntegrationHubCpp.dll").2.1 (by decide),
          (c5_error_reporting emptyFileSystem "a" "c" none
            (fun _ => none) (fun _ _ => none) "IntegrationHubCpp.dll").2.2.1 rfl,
          (c5_error_reporting emptyFileSystem "a" "c" none
            (fun _ => some 7) (fun _ _ => none) "IntegrationHubCpp.dll").2.2.2 7 rfl rfl⟩

/-- C7 counterexample: the device-state handler performs a direct
write of the connected flag on the vendor callback thread, which is
not the main thread. -/
theorem c7_offmain_write_counterexample :
    (ThreadKind.vendorCallbackThread, SharedField.connectedFlag) ∈
      (deviceStateCallbackHandler
        (some { connection := some 3, isConnected := true, isConnecting := false })
        false "POS1").directWrites ∧
    ThreadKind.vendorCallbackThread ≠ ThreadKind.mainThread := by
  constructor
  · simp [deviceStateCallbackHandler]
  · decide

/-- C7 amended: only the connecting flag is written exclusively on the
main thread (set in `connect()` and cleared by the completion lambdas
queued back to the main thread); the connection handle is written on
the background worker thread by `doConnect`, and the connected flag is
written directly on the vendor callback thread by the device-state
handler. -/
theorem c7_write_threads (s : POSState) (create : String → Option Nat)
    (company : String) (inst : Option POSState) (b success : Bool)
    (deviceId errMsg : String) :
    ((connect s).directWrites = [] ∨
      (connect s).directWrites = [(ThreadKind.mainThread, SharedField.connectingFlag)]) ∧
    (connectCompletion s success errMsg).directWrites =
      [(ThreadKind.mainThread, SharedField.connectingFlag)] ∧
    (doConnect create company).directWrites =
      [(ThreadKind.workerThread, SharedField.connectionHandle)] ∧
    ((deviceStateCallbackHandler inst b deviceId).directWrites =
      (match inst with
       | none => []
       | some _ => [(ThreadKind.vendorCallbackThread, SharedField.connectedFlag)])) ∧
    ThreadKind.workerThread ≠ ThreadKind.mainThread ∧
    ThreadKind.vendorCallbackThread ≠ ThreadKind.mainThread := by
  refine ⟨?_, ?_, ?_, ?_, by decide, by decide⟩
  · by_cases h1 : s.connection.isSome <;> by_cases h2 : s.isConnecting <;>
      simp [connect, h1, h2]
  · cases success <;> rfl
  · cases h : create company <;> simp [doConnect, h]
  · cases inst with
    | none => rfl
    | some s2 => cases b <;> cases hc : s2.isConnecting <;>
        simp [deviceStateCallbackHandler, hc]

/-- C9 counterexample: in the state where the connection handle is
already null but the connected flag is still set (reachable because
the device-state handler writes the flag without consulting the
handle), `disconnect()` changes nothing — in particular `isConnected()`
still returns true after the call. -/
theorem c9_disconnect_counterexample :
    disconnect { connection := none, isConnected := true, isConnecting := false } =
      ({ connection := none, isConnected := true, isConnecting := false }, []) ∧
    (disconnect { connection := none, isConnected := true,
                  isConnecting := false }).1.isConnected = true := by
  constructor <;> rfl

/-- C9 amended: after any `disconnect()` the connection handle is
null; `disconnect` is idempotent (a second call changes no state and
emits nothing); it clears the connected flag whenever a handle
existed; and when the handle is already null it changes no state and
emits no signal — so the connected flag is guaranteed false afterwards
only when a handle existed (or the flag was already false), not in the
anomalous null-handle-but-connected state. -/
theorem c9_disconnect_idempotent (s : POSState) :
    (disconnect s).1.connection = none ∧
    disconnect (disconnect s).1 = ((disconnect s).1, []) ∧
    (s.connection ≠ none → (disconnect s).1.isConnected = false) ∧
    (s.connection = none → disconnect s = (s, [])) := by
  cases h : s.connection with
  | none => simp [disconnect, h]
  | some hdl => simp [disconnect, h]

/-- Witness for C9 at a concrete connected state and a concrete
null-handle state. -/
theorem c9_disconnect_idempotent_witness :
    (disconnect { connection := some 5, isConnected := true,
                  isConnecting := false }).1.isConnected = false ∧
    disconnect { connection := none, isConnected := false, isConnecting := false } =
      ({ connection := none, isConnected := false, isConnecting := false }, []) := by
  exact ⟨(c9_disconnect_idempotent
            { connection := some 5, isConnected := true, isConnecting := false }).2.2.1
            (by decide),
         (c9_disconnect_idempotent
            { connection := none, isConnected := false, isConnecting := false }).2.2.2 rfl⟩

end POSIntegration
